/-
Verification of the ably-js realtime core specification.

This development gives a shallow embedding of the parts of the client
runtime that the specification describes: the Backoff Calculator, the
Pending Message Ledger, the Channel State Machine, the Connection
Manager's failure handling and lifecycle scheduling, and the platform
BufferUtils conversion helpers.

The repository snapshot ships the realtime/failure test-suite and the
platform glue; the Connection Manager, Channel State Machine and ledger
implementations themselves are not part of the snapshot, so those
components are modelled from the specification text (each such
definition carries a doc comment saying so).  The BufferUtils
definitions, by contrast, are translated directly from the two source
files `platform/nodejs/lib/util/bufferutils.ts` and the second
bufferutils variant shipped in the snapshot.

Durations and timestamps are modelled as rationals (ℚ); error codes and
HTTP-like status codes as naturals.
-/
import Mathlib

/-- A structured error as carried by protocol messages and state changes:
`{code, statusCode, message}` with the message abstracted away. -/
structure ErrInfo where
  code : ℕ
  statusCode : ℕ
  deriving DecidableEq, Repr

/-! ## Backoff Calculator

Modelled from the spec: "given `retryAttemptCount = n` (1-indexed) and
`baseTimeout`, the nominal delay is `min((n + 2) / 3, 2) * baseTimeout`;
the armed timer fires at a uniformly randomized value in
`[0.8 × nominal, 1.0 × nominal]`".  The implementation file holding this
calculator is not in the snapshot (only the test exercising it,
`disconnected_backoff` / `channel_backoff`). -/

/-- Modelled from the spec: the backoff coefficient `min((n + 2) / 3, 2)`
for 1-indexed retry attempt `n`. -/
def getBackoffCoefficient (n : ℕ) : ℚ := min ((n + 2) / 3) 2

/-- Modelled from the spec: the nominal (un-jittered) retry delay for
attempt `n` with base timeout `base`. -/
def nominalDelay (n : ℕ) (base : ℚ) : ℚ := getBackoffCoefficient n * base

/-- Modelled from the spec: the armed retry delay; `jitter` is the random
coefficient drawn uniformly from `[0.8, 1.0]`. -/
def retryDelay (jitter : ℚ) (n : ℕ) (base : ℚ) : ℚ := jitter * nominalDelay n base

/-- C1: for every attempt `n ≥ 1` and nonnegative `baseTimeout`, the armed
retry delay lies in `[0.8 × min((n+2)/3, 2) × baseTimeout,
1.0 × min((n+2)/3, 2) × baseTimeout]`; with `baseTimeout = 150` the
nominal delays for attempts 1..5 are 150, 200, 250, 300, 300, so the
delay intervals are [120,150], [160,200], [200,250], [240,300],
[240,300] respectively. -/
theorem backoff_delay_bounds (n : ℕ) (base jitter : ℚ)
    (hn : 1 ≤ n) (hbase : 0 ≤ base) (hj₁ : 4/5 ≤ jitter) (hj₂ : jitter ≤ 1) :
    (4/5 * nominalDelay n base ≤ retryDelay jitter n base ∧
      retryDelay jitter n base ≤ nominalDelay n base) ∧
    (nominalDelay 1 150 = 150 ∧ nominalDelay 2 150 = 200 ∧
      nominalDelay 3 150 = 250 ∧ nominalDelay 4 150 = 300 ∧
      nominalDelay 5 150 = 300) ∧
    (4/5 * (150 : ℚ) = 120 ∧ 4/5 * (200 : ℚ) = 160 ∧ 4/5 * (250 : ℚ) = 200 ∧
      4/5 * (300 : ℚ) = 240) := by
  have hcoe : 0 ≤ getBackoffCoefficient n := by
    unfold getBackoffCoefficient
    have h2 : (0:ℚ) ≤ 2 := by norm_num
    have : (0:ℚ) ≤ ((n : ℚ) + 2) / 3 := by positivity
    exact le_min this h2
  have hnom : 0 ≤ nominalDelay n base := mul_nonneg hcoe hbase
  refine ⟨⟨?_, ?_⟩, ⟨?_, ?_, ?_, ?_, ?_⟩, by norm_num⟩
  · unfold retryDelay
    exact mul_le_mul_of_nonneg_right hj₁ hnom
  · unfold retryDelay
    calc jitter * nominalDelay n base ≤ 1 * nominalDelay n base :=
          mul_le_mul_of_nonneg_right hj₂ hnom
      _ = nominalDelay n base := one_mul _
  all_goals
    unfold nominalDelay getBackoffCoefficient
    norm_num

/-- Witness for C1 at `n = 1`, `base = 150`, `jitter = 1`. -/
theorem backoff_delay_bounds_witness :
    4/5 * nominalDelay 1 150 ≤ retryDelay 1 1 150 ∧
      retryDelay 1 1 150 ≤ nominalDelay 1 150 :=
  (backoff_delay_bounds 1 150 1 (by norm_num) (by norm_num)
    (by norm_num) (by norm_num)).1

/-! ## Pending Message Ledger

Modelled from the spec: the ledger "correlates outbound messages
awaiting acknowledgment with inbound ack/nack protocol messages", keeps
entries "in strict send order" with a "serial or correlation identifier
assigned in send order", and settles cumulatively.  The ledger
implementation is not in the snapshot (only the nack_on_connection_*
tests exercising it). -/

/-- Settlement status of a ledger entry: its callback is pending,
resolved (ACKed), or rejected with an error code. -/
inductive EStatus where
  | pending
  | resolved
  | rejected (code : ℕ)
  deriving DecidableEq, Repr

/-- A Pending Message Ledger entry: correlation identifier assigned in
send order, and the settlement status of its callback. -/
structure LEntry where
  serial : ℕ
  status : EStatus
  deriving DecidableEq, Repr

/-- The Pending Message Ledger: entries awaiting acknowledgment, and the
next correlation identifier to assign. -/
structure Ledger where
  entries : List LEntry
  nextSerial : ℕ
  deriving DecidableEq, Repr

/-- Modelled from the spec: `send(batch)` "assigns the next correlation
identifier, appends an entry". -/
def Ledger.send (l : Ledger) : Ledger :=
  { entries := l.entries ++ [⟨l.nextSerial, .pending⟩],
    nextSerial := l.nextSerial + 1 }

/-- Resolve a single entry's callback if it is still pending. -/
def ackEntry (e : LEntry) : LEntry :=
  if e.status = .pending then { e with status := .resolved } else e

/-- Reject a single entry's callback with `code` if it is still pending. -/
def nackEntry (code : ℕ) (e : LEntry) : LEntry :=
  if e.status = .pending then { e with status := .rejected code } else e

/-- Modelled from the spec: cumulative settlement walks the queue from the
front (send order) settling pending entries while their correlation
identifier is at most `k`, and stops at the first entry whose identifier
exceeds `k`. -/
def settleThrough (settle : LEntry → LEntry) (k : ℕ) : List LEntry → List LEntry
  | [] => []
  | e :: es =>
    if e.serial ≤ k then settle e :: settleThrough settle k es else e :: es

/-- Modelled from the spec: "On ACK with identifier `k`: resolve entry `k`
and any earlier unresolved entries (cumulative)." -/
def Ledger.processAck (l : Ledger) (k : ℕ) : Ledger :=
  { l with entries := settleThrough ackEntry k l.entries }

/-- Modelled from the spec: "On NACK with identifier `k`: reject entry `k`
(and any earlier unresolved entries, per the same cumulative rule) with
the server-supplied error." -/
def Ledger.processNack (l : Ledger) (k code : ℕ) : Ledger :=
  { l with entries := settleThrough (nackEntry code) k l.entries }

/-- An operation applied to the ledger during a run. -/
inductive LOp where
  | send
  | ack (k : ℕ)
  | nack (k : ℕ) (code : ℕ)
  deriving DecidableEq, Repr

/-- One ledger operation step. -/
def Ledger.step (l : Ledger) : LOp → Ledger
  | .send => l.send
  | .ack k => l.processAck k
  | .nack k code => l.processNack k code

/-- The empty ledger at client construction. -/
def Ledger.init : Ledger := ⟨[], 0⟩

/-- The ledger state after a sequence of operations. -/
def runLedger (ops : List LOp) : Ledger := ops.foldl Ledger.step Ledger.init

/-- Settling preserves the serial of an entry. -/
theorem ackEntry_serial (e : LEntry) : (ackEntry e).serial = e.serial := by
  unfold ackEntry; split <;> rfl

/-- Rejecting preserves the serial of an entry. -/
theorem nackEntry_serial (code : ℕ) (e : LEntry) :
    (nackEntry code e).serial = e.serial := by
  unfold nackEntry; split <;> rfl

/-- Cumulative settlement preserves the sequence of serials. -/
theorem settleThrough_serials (settle : LEntry → LEntry) (k : ℕ)
    (hs : ∀ e, (settle e).serial = e.serial) (es : List LEntry) :
    (settleThrough settle k es).map LEntry.serial = es.map LEntry.serial := by
  induction es with
  | nil => rfl
  | cons e es ih =>
    unfold settleThrough
    split
    · simp [hs, ih]
    · rfl

/-- The serial-order invariant together with the serial bound used for the
induction: every serial is below `nextSerial` and serials strictly
increase along the queue. -/
def LedgerInv (l : Ledger) : Prop :=
  (∀ e ∈ l.entries, e.serial < l.nextSerial) ∧
    (l.entries.map LEntry.serial).Pairwise (· < ·)

theorem ledgerInv_init : LedgerInv Ledger.init := by
  constructor
  · intro e he; simp [Ledger.init] at he
  · simp [Ledger.init]

theorem ledgerInv_step (l : Ledger) (op : LOp) (h : LedgerInv l) :
    LedgerInv (l.step op) := by
  obtain ⟨hbound, hchain⟩ := h
  cases op with
  | send =>
    refine ⟨?_, ?_⟩
    · intro e he
      simp only [Ledger.step, Ledger.send, List.mem_append,
        List.mem_singleton] at he ⊢
      rcases he with he | he
      · exact Nat.lt_succ_of_lt (hbound e he)
      · subst he; exact Nat.lt_succ_self _
    · simp only [Ledger.step, Ledger.send, List.map_append, List.map_cons,
        List.map_nil]
      rw [List.pairwise_append]
      refine ⟨hchain, List.pairwise_singleton _ _, ?_⟩
      intro x hx y hy
      simp only [List.mem_singleton] at hy
      subst hy
      rcases List.mem_map.1 hx with ⟨e, he, rfl⟩
      exact hbound e he
  | ack k =>
    refine ⟨?_, ?_⟩
    · intro e he
      simp only [Ledger.step, Ledger.processAck] at he ⊢
      have := settleThrough_serials ackEntry k ackEntry_serial l.entries
      have hmem : e.serial ∈ l.entries.map LEntry.serial := by
        rw [← this]; exact List.mem_map_of_mem _ he
      rcases List.mem_map.1 hmem with ⟨e', he', heq⟩
      rw [← heq]; exact hbound e' he'
    · simp only [Ledger.step, Ledger.processAck]
      rw [settleThrough_serials ackEntry k ackEntry_serial]
      exact hchain
  | nack k code =>
    refine ⟨?_, ?_⟩
    · intro e he
      simp only [Ledger.step, Ledger.processNack] at he ⊢
      have := settleThrough_serials (nackEntry code) k (nackEntry_serial code)
        l.entries
      have hmem : e.serial ∈ l.entries.map LEntry.serial := by
        rw [← this]; exact List.mem_map_of_mem _ he
      rcases List.mem_map.1 hmem with ⟨e', he', heq⟩
      rw [← heq]; exact hbound e' he'
    · simp only [Ledger.step, Ledger.processNack]
      rw [settleThrough_serials (nackEntry code) k (nackEntry_serial code)]
      exact hchain

/-- Every reachable ledger state satisfies the serial-order invariant. -/
theorem ledgerInv_run (ops : List LOp) : LedgerInv (runLedger ops) := by
  unfold runLedger
  induction ops using List.reverseRecOn with
  | nil => exact ledgerInv_init
  | append_singleton ops op ih =>
    rw [List.foldl_append, List.foldl_cons, List.foldl_nil]
    exact ledgerInv_step _ _ ih

/-- On a queue with strictly increasing serials, the front-scanning
cumulative settlement acts pointwise: entry `i` is settled exactly when
its serial is at most `k`, and is untouched otherwise. -/
theorem settleThrough_getElem (settle : LEntry → LEntry) (k : ℕ)
    (es : List LEntry) (hsorted : (es.map LEntry.serial).Pairwise (· < ·)) :
    ∀ (i : ℕ) (e : LEntry), es[i]? = some e →
      (settleThrough settle k es)[i]? =
        some (if e.serial ≤ k then settle e else e) := by
  induction es with
  | nil => intro i e he; simp at he
  | cons e0 es ih =>
    intro i e he
    simp only [List.map_cons, List.pairwise_cons] at hsorted
    obtain ⟨hhead, htail⟩ := hsorted
    unfold settleThrough
    by_cases h0 : e0.serial ≤ k
    · rw [if_pos h0]
      cases i with
      | zero =>
        simp only [List.getElem?_cons_zero, Option.some.injEq] at he
        subst he
        simp [if_pos h0]
      | succ i =>
        simp only [List.getElem?_cons_succ] at he ⊢
        exact ih htail i e he
    · rw [if_neg h0]
      cases i with
      | zero =>
        simp only [List.getElem?_cons_zero, Option.some.injEq] at he
        subst he
        simp [if_neg h0]
      | succ i =>
        simp only [List.getElem?_cons_succ] at he ⊢
        have hmem : e.serial ∈ es.map LEntry.serial :=
          List.mem_map_of_mem _ (List.getElem?_mem he)
        have hlt : e0.serial < e.serial := hhead _ hmem
        have : ¬ e.serial ≤ k := by omega
        rw [he, if_neg this]

/-- C2: in every reachable ledger state, entries are in strict send order
(strictly increasing correlation identifiers); processing an ACK
(resp. NACK) with identifier `k` resolves (resp. rejects) the pending
entry with identifier `k` and every pending entry sent before it, leaves
already-settled entries unchanged, and never touches an entry sent
after the entry with identifier `k`. -/
theorem ledger_cumulative_ack (ops : List LOp) (k i : ℕ) (e : LEntry)
    (he : (runLedger ops).entries[i]? = some e) :
    ((runLedger ops).entries.map LEntry.serial).Pairwise (· < ·) ∧
    (e.serial ≤ k → e.status = .pending →
      ((runLedger ops).processAck k).entries[i]? = some ⟨e.serial, .resolved⟩ ∧
      ∀ code, ((runLedger ops).processNack k code).entries[i]? =
        some ⟨e.serial, .rejected code⟩) ∧
    (e.serial ≤ k → e.status ≠ .pending →
      ((runLedger ops).processAck k).entries[i]? = some e ∧
      ∀ code, ((runLedger ops).processNack k code).entries[i]? = some e) ∧
    (k < e.serial →
      ((runLedger ops).processAck k).entries[i]? = some e ∧
      ∀ code, ((runLedger ops).processNack k code).entries[i]? = some e) := by
  have hsorted := (ledgerInv_run ops).2
  refine ⟨hsorted, ?_, ?_, ?_⟩
  · intro hle hp
    constructor
    · have := settleThrough_getElem ackEntry k _ hsorted i e he
      rw [Ledger.processAck, this, if_pos hle, ackEntry, if_pos hp]
    · intro code
      have := settleThrough_getElem (nackEntry code) k _ hsorted i e he
      rw [Ledger.processNack, this, if_pos hle, nackEntry, if_pos hp]
  · intro hle hp
    constructor
    · have := settleThrough_getElem ackEntry k _ hsorted i e he
      rw [Ledger.processAck, this, if_pos hle, ackEntry, if_neg hp]
    · intro code
      have := settleThrough_getElem (nackEntry code) k _ hsorted i e he
      rw [Ledger.processNack, this, if_pos hle, nackEntry, if_neg hp]
  · intro hgt
    have hnle : ¬ e.serial ≤ k := by omega
    constructor
    · have := settleThrough_getElem ackEntry k _ hsorted i e he
      rw [Ledger.processAck, this, if_neg hnle]
    · intro code
      have := settleThrough_getElem (nackEntry code) k _ hsorted i e he
      rw [Ledger.processNack, this, if_neg hnle]

/-- Witness for C2: after three sends, ACK with identifier 1 resolves the
entry with serial 0 (sent before serial 1). -/
theorem ledger_cumulative_ack_witness :
    (runLedger [.send, .send, .send]).entries[0]? = some ⟨0, .pending⟩ ∧
      ((runLedger [.send, .send, .send]).processAck 1).entries[0]? =
        some ⟨0, .resolved⟩ :=
  ⟨by decide,
    ((ledger_cumulative_ack [.send, .send, .send] 1 0 ⟨0, .pending⟩
      (by decide)).2.1 (by decide) (by decide)).1⟩

/-! ## Ledger behaviour at connection teardown (C3)

Modelled from the spec: "On connection reaching `failed`/`suspended`/
`closed`: reject every unresolved entry with an error whose code
reflects the connection's terminal state ... never leave an entry
unresolved", with the concrete codes from the testable properties:
80002 for suspended, the server-supplied code for failed, 80017 for
closed. -/

/-- A terminal connection state as seen by the ledger: suspended, failed
with the server-supplied error code, or user-initiated close. -/
inductive ConnTerminal where
  | suspended
  | failed (serverCode : ℕ)
  | closed
  deriving DecidableEq, Repr

/-- Modelled from the spec: the error code used to reject pending entries
when the connection reaches the given terminal state. -/
def terminalCode : ConnTerminal → ℕ
  | .suspended => 80002
  | .failed serverCode => serverCode
  | .closed => 80017

/-- Modelled from the spec: on terminal connection failure the ledger
rejects every still-pending entry with the state-appropriate error. -/
def Ledger.failPending (l : Ledger) (t : ConnTerminal) : Ledger :=
  { l with entries := l.entries.map (nackEntry (terminalCode t)) }

/-- C3: when the connection reaches a terminal state, every entry that was
sent and not yet settled is rejected with the code corresponding to that
state — 80002 for suspended, the server-supplied code for failed, 80017
for closed — already-settled entries are untouched, and no entry is left
pending afterwards. -/
theorem nack_on_connection_failure (l : Ledger) (t : ConnTerminal) (i : ℕ)
    (e : LEntry) (he : l.entries[i]? = some e) :
    (e.status = .pending →
      (l.failPending t).entries[i]? = some ⟨e.serial,
        .rejected (match t with
          | .suspended => 80002
          | .failed serverCode => serverCode
          | .closed => 80017)⟩) ∧
    (e.status ≠ .pending → (l.failPending t).entries[i]? = some e) ∧
    (∀ e' ∈ (l.failPending t).entries, e'.status ≠ .pending) := by
  have hcode : terminalCode t = (match t with
      | .suspended => 80002
      | .failed serverCode => serverCode
      | .closed => 80017) := by
    cases t <;> rfl
  refine ⟨?_, ?_, ?_⟩
  · intro hp
    simp only [Ledger.failPending, List.getElem?_map, he, Option.map_some',
      Option.some.injEq]
    rw [nackEntry, if_pos hp, hcode]
  · intro hp
    simp only [Ledger.failPending, List.getElem?_map, he, Option.map_some',
      Option.some.injEq]
    rw [nackEntry, if_neg hp]
  · intro e' he'
    simp only [Ledger.failPending, List.mem_map] at he'
    obtain ⟨a, _, rfl⟩ := he'
    rw [nackEntry]
    split
    · simp
    · next h => exact h

/-- Witness for C3: a pending entry is rejected with 80017 on close. -/
theorem nack_on_connection_failure_witness :
    (Ledger.entries ⟨[⟨0, .pending⟩], 1⟩)[0]? = some ⟨0, .pending⟩ ∧
      ((Ledger.failPending ⟨[⟨0, .pending⟩], 1⟩ .closed).entries[0]? =
        some ⟨0, .rejected 80017⟩) :=
  ⟨by decide,
    (nack_on_connection_failure ⟨[⟨0, EStatus.pending⟩], 1⟩ .closed 0
      ⟨0, .pending⟩ (by decide)).1 (by decide)⟩

/-! ## Channel State Machine

Modelled from the spec §4.2: the per-channel attach/detach lifecycle,
attach-timeout handling with autonomous retry, and propagation of a
terminal connection failure to the channel and its operations.  The
channel implementation is not in the snapshot (only the failed_channel /
attach_timeout / channel_backoff tests exercising it). -/

/-- Channel states per the spec data model. -/
inductive ChState where
  | initialized
  | attaching
  | attached
  | detaching
  | detached
  | suspended
  | failed
  deriving DecidableEq, Repr

/-- The channel-state-machine state: current state, stored error, retry
attempt counter, and whether a caller's attach deferred is pending. -/
structure ChannelSM where
  state : ChState
  errorReason : Option ErrInfo
  retryAttemptCount : ℕ
  pendingAttach : Bool
  deriving DecidableEq, Repr

/-- Events driving the channel state machine. -/
inductive ChEvent where
  | attachRequested
  | attachedReceived
  | errorReceived (e : ErrInfo) (terminal : Bool)
  | attachDeadlineElapsed
  | retryTimerFired
  | connectionFailed (e : ErrInfo)
  deriving DecidableEq, Repr

/-- Side effects of a channel transition: settlement of the pending attach
deferred (`some none` = resolved, `some (some e)` = rejected with `e`),
the armed channel-retry delay, and whether an ATTACH protocol message
was sent. -/
structure ChEffects where
  settledAttach : Option (Option ErrInfo)
  armedRetryDelay : Option ℚ
  sentAttach : Bool
  deriving DecidableEq, Repr

/-- No side effects. -/
def ChEffects.none : ChEffects := ⟨Option.none, Option.none, false⟩

/-- Modelled from the spec: the attach-timeout error, "a timeout error
(distinct error code, HTTP-like status 408 semantics)", pinned by the
attach_timeout test to code 90007 and statusCode 408. -/
def attachTimeoutError : ErrInfo := ⟨90007, 408⟩

/-- Modelled from the spec §4.2: one transition of the channel state
machine.  `channelRetryTimeout` is the backoff base, `jitter` the random
coefficient for the armed channel-retry delay. -/
def chStep (channelRetryTimeout jitter : ℚ) (c : ChannelSM) :
    ChEvent → ChannelSM × ChEffects
  | .attachRequested =>
    if c.state = .attached then (c, ChEffects.none)
    else
      ({ c with
          state := .attaching
          pendingAttach := true },
        { settledAttach := Option.none
          armedRetryDelay := Option.none
          sentAttach := true })
  | .attachedReceived =>
    if c.state = .attaching then
      ({ c with
          state := .attached
          retryAttemptCount := 0
          pendingAttach := false },
        { settledAttach :=
            if c.pendingAttach then some Option.none else Option.none
          armedRetryDelay := Option.none
          sentAttach := false })
    else (c, ChEffects.none)
  | .errorReceived e terminal =>
    if c.state = .attaching ∨ c.state = .attached then
      if terminal then
        ({ c with
            state := .failed
            errorReason := some e
            pendingAttach := false },
          { settledAttach :=
              if c.pendingAttach then some (some e) else Option.none
            armedRetryDelay := Option.none
            sentAttach := false })
      else
        ({ c with
            state := .suspended
            retryAttemptCount := c.retryAttemptCount + 1
            pendingAttach := false },
          { settledAttach :=
              if c.pendingAttach then some (some e) else Option.none
            armedRetryDelay := some (retryDelay jitter
              (c.retryAttemptCount + 1) channelRetryTimeout)
            sentAttach := false })
    else (c, ChEffects.none)
  | .attachDeadlineElapsed =>
    if c.state = .attaching then
      ({ c with
          state := .suspended
          retryAttemptCount := c.retryAttemptCount + 1
          pendingAttach := false },
        { settledAttach :=
            if c.pendingAttach then some (some attachTimeoutError)
            else Option.none
          armedRetryDelay := some (retryDelay jitter
            (c.retryAttemptCount + 1) channelRetryTimeout)
          sentAttach := false })
    else (c, ChEffects.none)
  | .retryTimerFired =>
    if c.state = .suspended then
      ({ c with state := .attaching },
        { settledAttach := Option.none
          armedRetryDelay := Option.none
          sentAttach := true })
    else (c, ChEffects.none)
  | .connectionFailed e =>
    if c.state = .failed ∨ c.state = .detached then (c, ChEffects.none)
    else
      ({ c with
          state := .failed
          errorReason := some e
          pendingAttach := false },
        { settledAttach :=
            if c.pendingAttach then some (some e) else Option.none
          armedRetryDelay := Option.none
          sentAttach := false })

/-- C4: when the attach deadline elapses while a channel is `attaching`
with a pending attach deferred, the deferred is rejected with the
timeout error (code 90007, statusCode 408), the channel transitions to
`suspended` and arms the channel-level backoff delay; when that retry
timer fires the channel autonomously re-enters `attaching` (sending a
new ATTACH) without any new attach request from the caller. -/
theorem attach_timeout_behaviour (channelRetryTimeout jitter : ℚ)
    (c : ChannelSM) (hst : c.state = .attaching) (hp : c.pendingAttach = true) :
    let r := chStep channelRetryTimeout jitter c .attachDeadlineElapsed
    r.1.state = .suspended ∧
    r.2.settledAttach = some (some ⟨90007, 408⟩) ∧
    r.2.armedRetryDelay = some (retryDelay jitter (c.retryAttemptCount + 1)
      channelRetryTimeout) ∧
    (chStep channelRetryTimeout jitter r.1 .retryTimerFired).1.state =
      .attaching ∧
    (chStep channelRetryTimeout jitter r.1 .retryTimerFired).2.sentAttach =
      true := by
  simp [chStep, hst, hp, attachTimeoutError]

/-- Witness for C4 on a concrete attaching channel. -/
theorem attach_timeout_behaviour_witness :
    (chStep 1000 1 ⟨.attaching, Option.none, 0, true⟩
        .attachDeadlineElapsed).1.state = .suspended ∧
    (chStep 1000 1 ⟨.attaching, Option.none, 0, true⟩
        .attachDeadlineElapsed).2.settledAttach = some (some ⟨90007, 408⟩) ∧
    (chStep 1000 1 ⟨.attaching, Option.none, 0, true⟩
        .attachDeadlineElapsed).2.armedRetryDelay =
      some (retryDelay 1 1 1000) ∧
    (chStep 1000 1 (chStep 1000 1 ⟨.attaching, Option.none, 0, true⟩
        .attachDeadlineElapsed).1 .retryTimerFired).1.state = .attaching ∧
    (chStep 1000 1 (chStep 1000 1 ⟨.attaching, Option.none, 0, true⟩
        .attachDeadlineElapsed).1 .retryTimerFired).2.sentAttach = true :=
  attach_timeout_behaviour 1000 1 ⟨.attaching, Option.none, 0, true⟩ rfl rfl

/-! ## Channel operations and failure propagation (C5) -/

/-- The client-facing channel operations named by the spec's failure
propagation rule. -/
inductive ChOp where
  | publish
  | subscribe
  | presenceEnter
  | presenceLeave
  | presenceSubscribe
  | presenceGet
  deriving DecidableEq, Repr

/-- Modelled from the spec: invoking an operation on a channel.  The
result is `(some e, io)` when the call rejects immediately with error
`e`, `(none, io)` when it proceeds (queued while not attached); `io`
records whether network I/O is attempted.  "Once a channel reaches
`failed`, every subsequent publish/subscribe/presence-enter/leave/
subscribe/get call must reject immediately with the channel's failure
code (e.g., 90001), without attempting network I/O." -/
def ChannelSM.callOp (c : ChannelSM) (_ : ChOp) : Option ErrInfo × Bool :=
  if c.state = .failed then (some (c.errorReason.getD ⟨90001, 400⟩), false)
  else (Option.none, c.state = .attached)

/-- C5: once a channel is `failed` with stored error `e`, every
publish/subscribe/presence-enter/leave/subscribe/get call rejects
immediately with `e` (the stored failure code, e.g. 90001) and attempts
no network I/O; and when the underlying connection enters `failed`,
every channel not already `failed` or `detached` moves to `failed` with
its in-flight attach rejected with that error, after which every
operation on it rejects with the stored error and no I/O. -/
theorem failed_channel_ops (c : ChannelSM) (e : ErrInfo)
    (crt jitter : ℚ) :
    (c.state = .failed → c.errorReason = some e →
      ∀ op, c.callOp op = (some e, false)) ∧
    (c.state ≠ .failed → c.state ≠ .detached →
      (chStep crt jitter c (.connectionFailed e)).1.state = .failed ∧
      (chStep crt jitter c (.connectionFailed e)).1.errorReason = some e ∧
      (c.pendingAttach = true →
        (chStep crt jitter c (.connectionFailed e)).2.settledAttach =
          some (some e)) ∧
      ∀ op, (chStep crt jitter c (.connectionFailed e)).1.callOp op =
        (some e, false)) := by
  constructor
  · intro hf he op
    simp [ChannelSM.callOp, hf, he]
  · intro hnf hnd
    have hcond : ¬ (c.state = .failed ∨ c.state = .detached) := by
      rintro (h | h) <;> [exact hnf h; exact hnd h]
    refine ⟨?_, ?_, ?_, ?_⟩
    · simp [chStep, hcond]
    · simp [chStep, hcond]
    · intro hp; simp [chStep, hcond, hp]
    · intro op
      simp [chStep, hcond, ChannelSM.callOp]

/-- Witness for C5 on a concrete failed channel with stored error 90001. -/
theorem failed_channel_ops_witness :
    (ChannelSM.callOp ⟨.failed, some ⟨90001, 400⟩, 0, false⟩ .publish =
        (some ⟨90001, 400⟩, false)) ∧
      (chStep 1000 1 ⟨.attached, Option.none, 0, false⟩
        (.connectionFailed ⟨90001, 400⟩)).1.state = .failed :=
  ⟨(failed_channel_ops ⟨.failed, some ⟨90001, 400⟩, 0, false⟩ ⟨90001, 400⟩
      1000 1).1 rfl rfl .publish,
    ((failed_channel_ops ⟨.attached, Option.none, 0, false⟩ ⟨90001, 400⟩
      1000 1).2 (by decide) (by decide)).1⟩

/-! ## Connection Manager: connection-attempt failure handling (C6, C9)

Modelled from the spec §4.1 and §7: a connection attempt that fails with
an unrecoverable server error (e.g. invalid credentials) reaches
`failed`; a placement-constraint class error (protocol error whose
status is in the 5xx range) triggers an immediate re-attempt against the
next fallback host without counting against the primary retry budget.
The connection manager implementation is not in the snapshot (only the
invalid_cred_failure and try_fallback_hosts_on_placement_constraint
tests exercising it). -/

/-- Connection states per the spec data model. -/
inductive ConnState where
  | initialized
  | connecting
  | connected
  | disconnected
  | suspended
  | closing
  | closed
  | failed
  deriving DecidableEq, Repr

/-- The connection-manager state used by the failure-handling rules:
current state, stored error, retry counter, and which host the current
attempt targets (`0` = primary, `i > 0` = `fallbackHosts[i-1]`). -/
structure ConnSM where
  state : ConnState
  errorReason : Option ErrInfo
  retryAttemptCount : ℕ
  hostIndex : ℕ
  deriving DecidableEq, Repr

/-- A connection state-change event as delivered to `connection.on`
listeners: previous and current state and the associated reason. -/
structure ConnStateChange where
  previous : ConnState
  current : ConnState
  reason : Option ErrInfo
  deriving DecidableEq, Repr

/-- Modelled from the spec §7: the placement-constraint error class, "a
specific protocol error code/status in the 5xx range". -/
def isPlacementConstraint (e : ErrInfo) : Prop :=
  500 ≤ e.statusCode ∧ e.statusCode < 600

instance (e : ErrInfo) : Decidable (isPlacementConstraint e) :=
  inferInstanceAs (Decidable (_ ∧ _))

/-- Events that can end a connection attempt. -/
inductive ConnEvent where
  | transportBreak
  | serverError (e : ErrInfo)
  deriving DecidableEq, Repr

/-- Modelled from the spec: host selection; index `0` is the primary host,
higher indices walk the fallback-host list. -/
def selectHost (primary : String) (fallbacks : List String) (i : ℕ) : String :=
  if i = 0 then primary else fallbacks.getD (i - 1) primary

/-- Modelled from the spec §4.1: outcome of a failed connection attempt.
A transport-level break increments the retry counter and yields
`disconnected` (host selection returns to the primary); a server error
of the placement-constraint class re-attempts immediately against the
next fallback host without touching the retry counter; any other server
error during connecting is unrecoverable and yields `failed` with the
error stored and reported. -/
def connStep (c : ConnSM) : ConnEvent → ConnSM × ConnStateChange
  | .transportBreak =>
    if c.state = .connecting then
      ({ c with
          state := .disconnected
          retryAttemptCount := c.retryAttemptCount + 1
          hostIndex := 0 },
        ⟨.connecting, .disconnected, Option.none⟩)
    else (c, ⟨c.state, c.state, Option.none⟩)
  | .serverError e =>
    if c.state = .connecting then
      if isPlacementConstraint e then
        ({ c with hostIndex := c.hostIndex + 1 },
          ⟨.connecting, .connecting, some e⟩)
      else
        ({ c with
            state := .failed
            errorReason := some e },
          ⟨.connecting, .failed, some e⟩)
    else (c, ⟨c.state, c.state, Option.none⟩)

/-- C6: a connection attempt refused with an unrecoverable auth error
(e.g. code 40400, which is not a 5xx placement constraint) reaches
`failed` — never `disconnected` — and afterwards the connection's
`errorReason` is equal to the `reason` carried by the emitted
state-change event, both holding the auth error. -/
theorem invalid_cred_failure (c : ConnSM) (e : ErrInfo)
    (hst : c.state = .connecting) (hnp : ¬ isPlacementConstraint e) :
    (connStep c (.serverError e)).1.state = .failed ∧
    (connStep c (.serverError e)).1.state ≠ .disconnected ∧
    (connStep c (.serverError e)).2.current = .failed ∧
    (connStep c (.serverError e)).1.errorReason =
      (connStep c (.serverError e)).2.reason ∧
    (connStep c (.serverError e)).2.reason = some e := by
  simp [connStep, hst, hnp]

/-- Witness for C6 with the auth error 40400/404 of the
invalid_cred_failure test. -/
theorem invalid_cred_failure_witness :
    (connStep ⟨.connecting, Option.none, 0, 0⟩
        (.serverError ⟨40400, 404⟩)).1.state = .failed ∧
    (connStep ⟨.connecting, Option.none, 0, 0⟩
        (.serverError ⟨40400, 404⟩)).1.state ≠ .disconnected ∧
    (connStep ⟨.connecting, Option.none, 0, 0⟩
        (.serverError ⟨40400, 404⟩)).2.current = .failed ∧
    (connStep ⟨.connecting, Option.none, 0, 0⟩
        (.serverError ⟨40400, 404⟩)).1.errorReason =
      (connStep ⟨.connecting, Option.none, 0, 0⟩
        (.serverError ⟨40400, 404⟩)).2.reason ∧
    (connStep ⟨.connecting, Option.none, 0, 0⟩
        (.serverError ⟨40400, 404⟩)).2.reason = some ⟨40400, 404⟩ :=
  invalid_cred_failure ⟨.connecting, Option.none, 0, 0⟩ ⟨40400, 404⟩ rfl
    (by simp [isPlacementConstraint])

/-- C9: a connection attempt against the primary host that fails with a
placement-constraint class error (5xx status, e.g. code 50320 /
statusCode 503) is re-attempted immediately against the first fallback
host — not the primary — and the retry counter against the primary is
left untouched. -/
theorem try_fallback_hosts_on_placement_constraint (c : ConnSM) (e : ErrInfo)
    (primary fb : String) (rest : List String)
    (hst : c.state = .connecting) (hhost : c.hostIndex = 0)
    (hp : isPlacementConstraint e) (hne : fb ≠ primary) :
    (connStep c (.serverError e)).1.state = .connecting ∧
    (connStep c (.serverError e)).1.hostIndex = 1 ∧
    selectHost primary (fb :: rest)
      (connStep c (.serverError e)).1.hostIndex = fb ∧
    selectHost primary (fb :: rest)
      (connStep c (.serverError e)).1.hostIndex ≠ primary ∧
    (connStep c (.serverError e)).1.retryAttemptCount =
      c.retryAttemptCount := by
  have h1 : (connStep c (.serverError e)).1.hostIndex = 1 := by
    simp [connStep, hst, hp, hhost]
  refine ⟨?_, h1, ?_, ?_, ?_⟩
  · simp [connStep, hst, hp]
  · rw [h1]; simp [selectHost]
  · rw [h1]; simp [selectHost]; exact hne
  · simp [connStep, hst, hp]

/-- A concrete primary realtime host for the C9 witness. -/
def primaryHost : String := "main.realtime.ably.net"

/-- The fallback host used by the try_fallback_hosts test. -/
def echoFallbackHost : String := "echo.ably.io"

/-- Witness for C9 with the 50320/503 error of the
try_fallback_hosts_on_placement_constraint test. -/
theorem try_fallback_hosts_witness :
    (connStep ⟨.connecting, Option.none, 0, 0⟩
        (.serverError ⟨50320, 503⟩)).1.state = .connecting ∧
    (connStep ⟨.connecting, Option.none, 0, 0⟩
        (.serverError ⟨50320, 503⟩)).1.hostIndex = 1 ∧
    selectHost primaryHost [echoFallbackHost]
      (connStep ⟨.connecting, Option.none, 0, 0⟩
        (.serverError ⟨50320, 503⟩)).1.hostIndex = echoFallbackHost ∧
    selectHost primaryHost [echoFallbackHost]
      (connStep ⟨.connecting, Option.none, 0, 0⟩
        (.serverError ⟨50320, 503⟩)).1.hostIndex ≠ primaryHost ∧
    (connStep ⟨.connecting, Option.none, 0, 0⟩
        (.serverError ⟨50320, 503⟩)).1.retryAttemptCount = 0 :=
  try_fallback_hosts_on_placement_constraint ⟨.connecting, Option.none, 0, 0⟩
    ⟨50320, 503⟩ primaryHost echoFallbackHost [] rfl rfl
    (by simp [isPlacementConstraint]) (by decide)

/-! ## Idle-timeout detection (C8)

Modelled from the spec §4.1: "upon reaching `connected`, the manager
records `maxIdleInterval` advertised by the server ... arms a liveness
timer reset on every inbound protocol message; if no message arrives
within `maxIdleInterval + realtimeRequestTimeout` (a fixed grace
margin), the manager treats this as a transport break (→ disconnected),
reporting a timeout-class error with a distinguishing status" — pinned
by the idle_transport_timeout test to code 80003 / statusCode 408. -/

/-- Liveness bookkeeping while connected: the time of the last inbound
protocol message and the server-advertised `maxIdleInterval`. -/
structure Liveness where
  lastActivity : ℚ
  maxIdleInterval : ℚ
  deriving DecidableEq, Repr

/-- Modelled from the spec: the moment at which the liveness timer fires
if no further inbound message arrives. -/
def idleDeadline (lv : Liveness) (realtimeRequestTimeout : ℚ) : ℚ :=
  lv.lastActivity + lv.maxIdleInterval + realtimeRequestTimeout

/-- Modelled from the spec / idle_transport_timeout test: the
timeout-class error reported for an idle transport break. -/
def idleTimeoutError : ErrInfo := ⟨80003, 408⟩

/-- Modelled from the spec: every inbound protocol message resets the
liveness timer. -/
def onInboundMessage (lv : Liveness) (t : ℚ) : Liveness :=
  { lv with lastActivity := t }

/-- Modelled from the spec: the liveness check at time `now`.  If the
connection is `connected` and the idle deadline has passed, the manager
treats this as a transport break and transitions to `disconnected`,
reporting the timeout-class error; otherwise nothing happens. -/
def checkLiveness (c : ConnSM) (lv : Liveness) (rrt now : ℚ) :
    ConnSM × Option ConnStateChange :=
  if c.state = .connected ∧ idleDeadline lv rrt ≤ now then
    ({ c with
        state := .disconnected
        errorReason := some idleTimeoutError },
      some ⟨.connected, .disconnected, some idleTimeoutError⟩)
  else (c, Option.none)

/-- C8: for a connected connection, once `maxIdleInterval` plus the
`realtimeRequestTimeout` grace margin elapses after the last inbound
protocol message, the manager transitions to `disconnected` reporting
error code 80003 with statusCode 408; an inbound message at time `t`
pushes the deadline out to `t + maxIdleInterval + realtimeRequestTimeout`,
and before the deadline no transition occurs. -/
theorem idle_transport_timeout (c : ConnSM) (lv : Liveness) (rrt now : ℚ)
    (hst : c.state = .connected) :
    (lv.lastActivity + lv.maxIdleInterval + rrt ≤ now →
      (checkLiveness c lv rrt now).1.state = .disconnected ∧
      (checkLiveness c lv rrt now).2 =
        some ⟨.connected, .disconnected, some ⟨80003, 408⟩⟩) ∧
    (now < lv.lastActivity + lv.maxIdleInterval + rrt →
      (checkLiveness c lv rrt now).1 = c ∧
      (checkLiveness c lv rrt now).2 = Option.none) ∧
    (∀ t, idleDeadline (onInboundMessage lv t) rrt =
      t + lv.maxIdleInterval + rrt) := by
  refine ⟨?_, ?_, ?_⟩
  · intro hdl
    constructor <;>
      simp [checkLiveness, hst, idleDeadline, idleTimeoutError, hdl]
  · intro hdl
    have : ¬ (c.state = .connected ∧ idleDeadline lv rrt ≤ now) := by
      rintro ⟨-, h⟩
      rw [idleDeadline] at h
      linarith
    constructor <;> simp [checkLiveness, this]
  · intro t
    simp [idleDeadline, onInboundMessage]

/-- Witness for C8: maxIdleInterval 100, realtimeRequestTimeout 2000,
last activity at 0, checked at time 2100. -/
theorem idle_transport_timeout_witness :
    ((0 : ℚ) + 100 + 2000 ≤ 2100) ∧
      (checkLiveness ⟨.connected, Option.none, 0, 0⟩ ⟨0, 100⟩ 2000
        2100).1.state = .disconnected :=
  ⟨by norm_num,
    ((idle_transport_timeout ⟨.connected, Option.none, 0, 0⟩ ⟨0, 100⟩ 2000
      2100 rfl).1 (by norm_num)).1⟩

/-! ## Connection lifecycle with an unreachable host (C7)

Modelled from the spec §4.1 state machine with a virtual clock, as the
design notes prescribe ("explicit state machine plus a single
scheduled-timer abstraction per scope ... inject a virtual clock"):
with the host permanently unreachable every connection attempt fails
(after a transport-dependent latency of at most `realtimeRequestTimeout`),
each `connecting → disconnected` cycle arms a disconnected-retry timer
via the Backoff Calculator, the `connectionStateTtl` deadline escalates
`disconnected` to `suspended` (per the spec's expected event sequence, a
connection attempt that fails after the deadline has already elapsed
goes to `suspended` rather than `disconnected`), and `suspended`
re-attempts on the separate fixed `suspendedRetryTimeout`.  The
connection-manager scheduler is not in the snapshot (only the
no_connection_lifecycle test exercising it). -/

/-- Configuration for the lifecycle run: retry timeouts, the
suspension deadline, and the observation horizon. -/
structure LifeCfg where
  disconnectedRetryTimeout : ℚ
  suspendedRetryTimeout : ℚ
  connectionStateTtl : ℚ
  horizon : ℚ
  deriving DecidableEq, Repr

/-- Modelled from the spec: the sequence of connection state events
emitted up to the observation horizon, starting in state `ph` at time
`now`.  `fails k` is the failure latency of the `k`-th connection
attempt (the host is unreachable, so every attempt fails); `jits n` is
the jitter coefficient of the `n`-th disconnected retry; `retryN` is the
retry attempt counter; `fuel` bounds the recursion. -/
def lifeEvents (cfg : LifeCfg) (fails jits : ℕ → ℚ) :
    ℕ → ℚ → ConnState → ℕ → ℕ → List ConnState
  | 0, _, _, _, _ => []
  | fuel + 1, now, ph, retryN, k =>
    if cfg.horizon < now then []
    else
      ph ::
        match ph with
        | .connecting =>
          if cfg.connectionStateTtl ≤ now + fails k then
            lifeEvents cfg fails jits fuel (now + fails k) .suspended retryN
              (k + 1)
          else
            lifeEvents cfg fails jits fuel (now + fails k) .disconnected
              (retryN + 1) (k + 1)
        | .disconnected =>
          if cfg.connectionStateTtl ≤
              now + retryDelay (jits retryN) retryN
                cfg.disconnectedRetryTimeout then
            lifeEvents cfg fails jits fuel (max cfg.connectionStateTtl now)
              .suspended retryN k
          else
            lifeEvents cfg fails jits fuel
              (now + retryDelay (jits retryN) retryN
                cfg.disconnectedRetryTimeout)
              .connecting retryN k
        | .suspended =>
          lifeEvents cfg fails jits fuel (now + cfg.suspendedRetryTimeout)
            .connecting retryN k
        | _ => []

/-- The events observed by a `connection.on` listener from client
construction (time 0, first attempt, counter 0) to the horizon. -/
def observedEvents (cfg : LifeCfg) (fails jits : ℕ → ℚ) (fuel : ℕ) :
    List ConnState :=
  lifeEvents cfg fails jits fuel 0 .connecting 0 0

/-- C7: with `disconnectedRetryTimeout = 1000`, `realtimeRequestTimeout =
50` (so every attempt fails within 50), `suspendedRetryTimeout = 1000`
and `connectionStateTtl = 2900`, for every choice of attempt-failure
latencies in `[0, 50]` and jitter coefficients in `[0.8, 1]`, the events
observed over 4.8 seconds are exactly connecting, disconnected,
connecting, disconnected, connecting, disconnected, suspended,
connecting, suspended. -/
theorem no_connection_lifecycle (fails jits : ℕ → ℚ)
    (hf : ∀ i, 0 ≤ fails i ∧ fails i ≤ 50)
    (hj : ∀ i, 4/5 ≤ jits i ∧ jits i ≤ 1) :
    observedEvents ⟨1000, 1000, 2900, 4800⟩ fails jits 10 =
      [.connecting, .disconnected, .connecting, .disconnected, .connecting,
        .disconnected, .suspended, .connecting, .suspended] := by
  obtain ⟨hf0, hf0u⟩ := hf 0
  obtain ⟨hf1, hf1u⟩ := hf 1
  obtain ⟨hf2, hf2u⟩ := hf 2
  obtain ⟨hf3, hf3u⟩ := hf 3
  obtain ⟨hj1, hj1u⟩ := hj 1
  obtain ⟨hj2, hj2u⟩ := hj 2
  obtain ⟨hj3, hj3u⟩ := hj 3
  have hr1 : retryDelay (jits 1) 1 1000 = jits 1 * 1000 := by
    unfold retryDelay nominalDelay getBackoffCoefficient
    norm_num
  have hr2 : retryDelay (jits 2) 2 1000 = jits 2 * (4000/3) := by
    unfold retryDelay nominalDelay getBackoffCoefficient
    norm_num
  have hr3 : retryDelay (jits 3) 3 1000 = jits 3 * (5000/3) := by
    unfold retryDelay nominalDelay getBackoffCoefficient
    norm_num
  simp only [observedEvents, lifeEvents, hr1, hr2, hr3, zero_add]
  norm_num only
  rw [if_neg (not_le.mpr (show fails 0 < 2900 by linarith))]
  rw [if_neg (not_lt.mpr (show fails 0 ≤ 4800 by linarith))]
  rw [if_neg (not_le.mpr (show fails 0 + jits 1 * 1000 < 2900 by linarith))]
  rw [if_neg (not_lt.mpr (show fails 0 + jits 1 * 1000 ≤ 4800 by linarith))]
  rw [if_neg (not_le.mpr (show fails 0 + jits 1 * 1000 + fails 1 < 2900 by
    linarith))]
  rw [if_neg (not_lt.mpr (show fails 0 + jits 1 * 1000 + fails 1 ≤ 4800 by
    linarith))]
  rw [if_neg (not_le.mpr (show fails 0 + jits 1 * 1000 + fails 1 +
    jits 2 * (4000/3) < 2900 by linarith))]
  rw [if_neg (not_lt.mpr (show fails 0 + jits 1 * 1000 + fails 1 +
    jits 2 * (4000/3) ≤ 4800 by linarith))]
  rw [if_neg (not_le.mpr (show fails 0 + jits 1 * 1000 + fails 1 +
    jits 2 * (4000/3) + fails 2 < 2900 by linarith))]
  rw [if_neg (not_lt.mpr (show fails 0 + jits 1 * 1000 + fails 1 +
    jits 2 * (4000/3) + fails 2 ≤ 4800 by linarith))]
  rw [if_pos (show (2900 : ℚ) ≤ fails 0 + jits 1 * 1000 + fails 1 +
    jits 2 * (4000/3) + fails 2 + jits 3 * (5000/3) by linarith)]
  rw [max_eq_left (show fails 0 + jits 1 * 1000 + fails 1 +
    jits 2 * (4000/3) + fails 2 ≤ (2900 : ℚ) by linarith)]
  norm_num only
  rw [if_pos (show (2900 : ℚ) ≤ 3900 + fails 3 by linarith)]
  rw [if_neg (not_lt.mpr (show (3900 : ℚ) + fails 3 ≤ 4800 by linarith))]
  rw [if_pos (show (4800 : ℚ) < 3900 + fails 3 + 1000 by linarith)]
  simp

/-- Witness for C7 with every attempt failing after exactly 50 and no
jitter (coefficient 1). -/
theorem no_connection_lifecycle_witness :
    observedEvents ⟨1000, 1000, 2900, 4800⟩ (fun _ => 50) (fun _ => 1) 10 =
      [.connecting, .disconnected, .connecting, .disconnected, .connecting,
        .disconnected, .suspended, .connecting, .suspended] :=
  no_connection_lifecycle (fun _ => 50) (fun _ => 1)
    (fun _ => ⟨by norm_num, by norm_num⟩)
    (fun _ => ⟨by norm_num, by norm_num⟩)

/-! ## BufferUtils.toBuffer: node variant vs view-aware variant (C10)

Translated from the source.  `platform/nodejs/lib/util/bufferutils.ts`:

    toBuffer(buffer) {
      if (Buffer.isBuffer(buffer)) return buffer;
      return Buffer.from(buffer);
    }

The second bufferutils variant in the snapshot:

    toBuffer(buffer) {
      if (Buffer.isBuffer(buffer)) return buffer;
      if (buffer instanceof ArrayBuffer) return Buffer.from(buffer);
      return Buffer.from(buffer.buffer, buffer.byteOffset, buffer.byteLength);
    }

For a `Buffer` input both return it unchanged, so the discriminating
inputs are non-Buffer `ArrayBufferView`s (typed arrays).  Per Node.js
semantics, `Buffer.from(typedArray)` copies one byte per *element*,
truncating each element value to 8 bits, whereas
`Buffer.from(arrayBuffer, byteOffset, byteLength)` yields exactly the
bytes the view spans.  Buffers are modelled as their byte sequences
(`List ℕ`, each byte < 256); typed-array element values are decoded
little-endian (the practical platform endianness). -/

/-- A (non-Buffer) ArrayBufferView: the bytes of its underlying
ArrayBuffer, its byte offset, its `BYTES_PER_ELEMENT`, and its number of
elements. -/
structure ABView where
  buf : List ℕ
  byteOffset : ℕ
  bytesPerElement : ℕ
  length : ℕ
  deriving DecidableEq, Repr

/-- `view.byteLength`: elements times element width. -/
def ABView.byteLength (v : ABView) : ℕ := v.length * v.bytesPerElement

/-- The bytes the view spans in its underlying buffer. -/
def ABView.spanBytes (v : ABView) : List ℕ :=
  (v.buf.drop v.byteOffset).take v.byteLength

/-- Split a byte list into `n` chunks of width `w` (the per-element byte
groups of a typed array). -/
def chunks : ℕ → ℕ → List ℕ → List (List ℕ)
  | 0, _, _ => []
  | n + 1, w, l => l.take w :: chunks n w (l.drop w)

/-- Little-endian decoding of a byte group into an element value. -/
def leDecode : List ℕ → ℕ
  | [] => 0
  | b :: bs => b + 256 * leDecode bs

/-- The element values of the typed array. -/
def ABView.elems (v : ABView) : List ℕ :=
  (chunks v.length v.bytesPerElement v.spanBytes).map leDecode

/-- The node `toBuffer` on a non-Buffer view: `Buffer.from(view)` copies
one byte per element, truncating each element value to 8 bits. -/
def toBuffer_node (v : ABView) : List ℕ := v.elems.map (· % 256)

/-- The view-aware `toBuffer` of the second bufferutils variant on a
non-Buffer view: `Buffer.from(view.buffer, view.byteOffset,
view.byteLength)` — exactly the spanned bytes. -/
def toBuffer_view (v : ABView) : List ℕ := v.spanBytes

/-- C10 counterexample: for a `Uint16Array` of one element 0x1234 (bytes
`[52, 18]` little-endian), the node `toBuffer` yields the single byte
`[52]` (the element value mod 256) while the view-aware `toBuffer`
yields the two spanned bytes `[52, 18]` — the two are not equivalent on
views with element width greater than one byte. -/
theorem toBuffer_variants_differ :
    toBuffer_node ⟨[52, 18], 0, 2, 1⟩ ≠ toBuffer_view ⟨[52, 18], 0, 2, 1⟩ ∧
    toBuffer_node ⟨[52, 18], 0, 2, 1⟩ = [52] ∧
    toBuffer_view ⟨[52, 18], 0, 2, 1⟩ = [52, 18] := by
  refine ⟨?_, ?_, ?_⟩ <;> decide

/-- Width-one chunking is just the singleton decomposition. -/
theorem chunks_width_one (l : List ℕ) :
    chunks l.length 1 l = l.map (fun b => [b]) := by
  induction l with
  | nil => rfl
  | cons a t ih => simp [chunks, ih]

/-- Truncation to 8 bits is the identity on genuine bytes. -/
theorem map_mod256_eq_self (l : List ℕ) (h : ∀ b ∈ l, b < 256) :
    l.map (· % 256) = l := by
  induction l with
  | nil => rfl
  | cons a t ih =>
    simp only [List.map_cons, List.cons.injEq]
    exact ⟨Nat.mod_eq_of_lt (h a (by simp)),
      ih fun b hb => h b (List.mem_cons_of_mem _ hb)⟩

/-- C10 amended: the two `toBuffer` variants agree on every in-bounds
ArrayBufferView of one-byte element width (e.g. `Uint8Array`, including
views with non-zero `byteOffset`), both returning exactly the bytes the
view spans; for wider element types they differ (see the
counterexample). -/
theorem toBuffer_equiv_width_one (v : ABView)
    (hw : v.bytesPerElement = 1)
    (hb : ∀ b ∈ v.buf, b < 256)
    (hbound : v.byteOffset + v.length * v.bytesPerElement ≤ v.buf.length) :
    toBuffer_node v = toBuffer_view v := by
  have hbound' : v.byteOffset + v.length ≤ v.buf.length := by
    rw [hw, mul_one] at hbound
    exact hbound
  have hspanlen : v.spanBytes.length = v.length := by
    simp only [ABView.spanBytes, ABView.byteLength, hw, mul_one,
      List.length_take, List.length_drop]
    omega
  have hspanmem : ∀ b ∈ v.spanBytes, b < 256 := by
    intro b hbmem
    exact hb b (List.mem_of_mem_drop (List.mem_of_mem_take hbmem))
  have helems : v.elems = v.spanBytes := by
    rw [ABView.elems, hw, ← hspanlen, chunks_width_one]
    rw [List.map_map]
    have : leDecode ∘ (fun b => [b]) = id := by
      funext b
      simp [leDecode]
    rw [this, List.map_id]
  rw [toBuffer_node, toBuffer_view, helems]
  exact map_mod256_eq_self _ hspanmem

/-- Witness for the amended C10 on a `Uint8Array` view with non-zero
byteOffset: both variants return the single spanned byte. -/
theorem toBuffer_equiv_width_one_witness :
    toBuffer_node ⟨[7, 9], 1, 1, 1⟩ = toBuffer_view ⟨[7, 9], 1, 1, 1⟩ :=
  toBuffer_equiv_width_one ⟨[7, 9], 1, 1, 1⟩ rfl (by decide) (by decide)
